import Mathlib

/-!
Verification of `sodasql/scan/scan.py` (the `Scan` class).

The `Scan` class drives a table scan: it assembles one wide aggregation
query (a list of SQL SELECT fields grown in lock-step with a list of
placeholder `Measurement`s), executes it, fills the measurement values
positionally from the result tuple, derives percentage/count metrics,
runs per-column group-by statistics (distinct / unique count / uniqueness),
and finally evaluates configured test expressions against the computed
metric values.

`scan.py` is embedded below as executable Lean definitions.  The
collaborator classes it imports (`Metric`, `Measurement`, `Dialect`,
`ScanConfiguration`, `ScanColumnCache`, `ScanResult`) are not part of the
sources; they are modelled from the specification, as noted on each
definition.  Python's `/` raising `ZeroDivisionError` and
`None`-arithmetic raising `TypeError` are rendered with `Except String`;
`eval` resolves an unbound name through the `__builtins__` it injects
into its globals (so the metric names `min`, `max` and `sum` resolve to
builtin functions) and raises `NameError` only for a name that is no
builtin either.
-/

namespace SodaScan

/-- Modelled from the spec: a discovered column is the triple
{name, declared type, nullable}. -/
structure Column where
  name : String
  type : String
  nullable : Bool
deriving DecidableEq, Repr

/-- Modelled from the spec: the closed enumeration of named statistic kinds
(row count, missing/valid/invalid count and percentage, values
count/percentage, min/max/avg/sum, min/max length, distinct count, unique
count, uniqueness ratio, mins/maxs/frequent-values lists, schema). -/
inductive Metric where
  | row_count
  | missing_count
  | missing_percentage
  | values_count
  | values_percentage
  | valid_count
  | valid_percentage
  | invalid_count
  | invalid_percentage
  | min
  | max
  | avg
  | sum
  | min_length
  | max_length
  | distinct
  | unique_count
  | uniqueness
  | mins
  | maxs
  | frequent_values
  | schema
deriving DecidableEq, Repr

/-- Modelled from the spec: a metric's identity is its snake_case name
string (rule expressions reference metrics by these names, e.g.
`missing_percentage < 10`). -/
def Metric.text : Metric → String
  | .row_count => "row_count"
  | .missing_count => "missing_count"
  | .missing_percentage => "missing_percentage"
  | .values_count => "values_count"
  | .values_percentage => "values_percentage"
  | .valid_count => "valid_count"
  | .valid_percentage => "valid_percentage"
  | .invalid_count => "invalid_count"
  | .invalid_percentage => "invalid_percentage"
  | .min => "min"
  | .max => "max"
  | .avg => "avg"
  | .sum => "sum"
  | .min_length => "min_length"
  | .max_length => "max_length"
  | .distinct => "distinct"
  | .unique_count => "unique_count"
  | .uniqueness => "uniqueness"
  | .mins => "mins"
  | .maxs => "maxs"
  | .frequent_values => "frequent_values"
  | .schema => "schema"

/-- A runtime value held by a measurement, returned in a query result
cell, or met during rule evaluation.  Numbers are rationals (Python
int/float arithmetic on counts and percentages), `null` is Python `None`,
`vlist` is the list value used by the mins/maxs/frequent-values
measurements, and `builtin` is a Python builtin function resolved from
the `__builtins__` that `eval` injects into its globals. -/
inductive Value where
  | num (q : ℚ)
  | boolean (b : Bool)
  | str (s : String)
  | null
  | vlist (qs : List ℚ)
  | builtin (name : String)
deriving DecidableEq, Repr

/-- Modelled from the spec: a measurement is {metric, optional column name,
value}; the value is absent (`none`) for a placeholder not yet filled from
a query result. -/
structure Measurement where
  metric : Metric
  column_name : Option String := none
  value : Option Value := none
deriving DecidableEq, Repr

/-- Modelled from the spec: the dialect capability interface — SQL fragment
builders and column type classification, consumed by the scan. -/
structure Dialect where
  sql_expr_count_all : String
  sql_expr_count_conditional : String → String
  sql_expr_conditional : String → String → String
  sql_expr_min : String → String
  sql_expr_max : String → String
  sql_expr_avg : String → String
  sql_expr_sum : String → String
  sql_expr_length : String → String
  sql_expr_cast_text_to_number : String → String → String
  qualify_column_name : String → String
  qualify_table_name : String → String
  is_text : Column → Bool
  is_number : Column → Bool

/-- Modelled from the spec: per-column scratch state prepared before the
aggregation pass — the validity configuration (opaque payload, the scan
only tests its presence), whether validity/missing metrics are enabled for
the column, and the two pre-rendered SQL predicates. -/
structure ScanColumnCache where
  validity : Option String
  is_validity_metric_enabled : Bool
  is_missing_metric_enabled : Bool
  missing_condition : String
  non_missing_and_valid_condition : String

/-- A test rule expression.  `scan.py` evaluates rule text with Python
`eval`; the expression forms that reach the evaluator are deep-embedded
here: metric-name variables, integer literals, comparisons, boolean
connectives and arithmetic. -/
inductive TExpr where
  | var (name : String)
  | lit (n : ℤ)
  | lt (a b : TExpr)
  | le (a b : TExpr)
  | gt (a b : TExpr)
  | ge (a b : TExpr)
  | eq (a b : TExpr)
  | ne (a b : TExpr)
  | conj (a b : TExpr)
  | disj (a b : TExpr)
  | neg (a : TExpr)
  | add (a b : TExpr)
  | mul (a b : TExpr)
deriving DecidableEq, Repr

/-- The source text of a rule expression (the string Python `eval`
receives, and against which `scan.py` substring-tests metric names). -/
def TExpr.text : TExpr → String
  | .var n => n
  | .lit n => toString n
  | .lt a b => a.text ++ " < " ++ b.text
  | .le a b => a.text ++ " <= " ++ b.text
  | .gt a b => a.text ++ " > " ++ b.text
  | .ge a b => a.text ++ " >= " ++ b.text
  | .eq a b => a.text ++ " == " ++ b.text
  | .ne a b => a.text ++ " != " ++ b.text
  | .conj a b => a.text ++ " and " ++ b.text
  | .disj a b => a.text ++ " or " ++ b.text
  | .neg a => "not " ++ a.text
  | .add a b => a.text ++ " + " ++ b.text
  | .mul a b => a.text ++ " * " ++ b.text

/-- The variable names (identifiers) an expression actually references. -/
def TExpr.vars : TExpr → List String
  | .var n => [n]
  | .lit _ => []
  | .lt a b => a.vars ++ b.vars
  | .le a b => a.vars ++ b.vars
  | .gt a b => a.vars ++ b.vars
  | .ge a b => a.vars ++ b.vars
  | .eq a b => a.vars ++ b.vars
  | .ne a b => a.vars ++ b.vars
  | .conj a b => a.vars ++ b.vars
  | .disj a b => a.vars ++ b.vars
  | .neg a => a.vars
  | .add a b => a.vars ++ b.vars
  | .mul a b => a.vars ++ b.vars

/-- Modelled from the spec: per-column rule configuration — the list of
test expressions configured for the column. -/
structure ScanConfigurationColumn where
  tests : List TExpr

/-- Modelled from the spec: the configuration contract — per-column
enabled-metric set, per-column validity format, per-column rule
expressions, and the mins/maxs and frequent-values limits. -/
structure ScanConfiguration where
  table_name : String
  is_metric_enabled : String → Metric → Bool
  get_validity_format : Column → Option String
  columns : List (String × ScanConfigurationColumn)
  get_mins_maxs_limit : String → Nat
  get_frequent_values_limit : String → Nat

/-- Modelled from the spec: `is_any_metric_enabled` holds when at least one
of the listed metrics is enabled for the column. -/
def ScanConfiguration.is_any_metric_enabled
    (cfg : ScanConfiguration) (column_name : String) (metrics : List Metric) : Bool :=
  metrics.any (cfg.is_metric_enabled column_name)

/-- Modelled from the spec: the warehouse contract —
`execute_query_one(sql)` returns one tuple of scalars,
`execute_query_all(sql)` returns a list of tuples. -/
structure Warehouse where
  execute_query_one : String → List Value
  execute_query_all : String → List (List Value)

/-- Substring containment: Python's `needle in haystack` on strings. -/
def strContains (haystack needle : String) : Bool :=
  haystack.toList.tails.any (fun t => needle.toList.isPrefixOf t)

/-- A Python `for` loop that computes one result per element and stops at
the first raised exception. -/
def exceptMap {α β : Type} (f : α → Except String β) : List α → Except String (List β)
  | [] => .ok []
  | a :: rest =>
    match f a with
    | .error e => .error e
    | .ok b =>
      match exceptMap f rest with
      | .error e => .error e
      | .ok bs => .ok (b :: bs)

/-- A Python `for` loop that `extend`s an accumulator list with the block
run for each element, stopping at the first raised exception. -/
def exceptMapFlatten {α β : Type} (f : α → Except String (List β)) :
    List α → Except String (List β)
  | [] => .ok []
  | a :: rest =>
    match f a with
    | .error e => .error e
    | .ok l =>
      match exceptMapFlatten f rest with
      | .error e => .error e
      | .ok ls => .ok (l ++ ls)

/-- Python `a / b`: raises `ZeroDivisionError` when the divisor is zero,
otherwise exact division (`scan.py` divides counts, so the result is the
exact rational Python would return as int/float). -/
def pyDiv (a b : ℚ) : Except String ℚ :=
  if b = 0 then .error "ZeroDivisionError: division by zero" else .ok (a / b)

/-- The per-column flags `Scan.query_aggregations` computes while handling
one column (scan.py lines 108-162): the dialect type classification written
into the column cache, the `is_valid_enabled` / `is_missing_enabled`
decisions, the validity format resolved for text columns, the numeric-text
classification, and the cached numeric-text cast expression. -/
structure ColFlags where
  is_text : Bool
  is_number : Bool
  is_valid_enabled : Bool
  is_missing_enabled : Bool
  validity_format : Option String
  is_column_numeric_text_format : Bool
  numeric_text_expr : Option String

/-- Computes the per-column flags exactly as `Scan.query_aggregations`
does: `is_valid_enabled` when a validity is configured and its metric
enabled, or when any of DISTINCT/UNIQUENESS is enabled;
`is_missing_enabled` when valid is enabled or the missing metric is
enabled; the validity format is resolved only for text columns, and the
column is numeric-text when that format is a string starting with
`number_`. -/
def columnFlags (dialect : Dialect) (cfg : ScanConfiguration)
    (cache : ScanColumnCache) (col : Column) : ColFlags :=
  let is_text := dialect.is_text col
  let is_number := dialect.is_number col
  let is_valid_enabled :=
    (cache.validity.isSome && cache.is_validity_metric_enabled)
      || cfg.is_any_metric_enabled col.name [.distinct, .uniqueness]
  let is_missing_enabled := is_valid_enabled || cache.is_missing_metric_enabled
  let validity_format := if is_text then cfg.get_validity_format col else none
  let is_column_numeric_text_format :=
    is_text && (match validity_format with
                | some s => s.startsWith "number_"
                | none => false)
  let numeric_text_expr :=
    if is_column_numeric_text_format then
      some (dialect.sql_expr_conditional cache.non_missing_and_valid_condition
        (dialect.sql_expr_cast_text_to_number (dialect.qualify_column_name col.name)
          (validity_format.getD "")))
    else none
  ⟨is_text, is_number, is_valid_enabled, is_missing_enabled,
   validity_format, is_column_numeric_text_format, numeric_text_expr⟩

/-- The SQL SELECT fields `Scan.query_aggregations` appends for one column,
in statement order (missing count, valid count, min/max length for text
columns, min/max/avg/sum for numeric or numeric-text columns). -/
def columnAggFields (dialect : Dialect) (cfg : ScanConfiguration)
    (cache : ScanColumnCache) (col : Column) : List String :=
  let f := columnFlags dialect cfg cache col
  let qualified_column_name := dialect.qualify_column_name col.name
  let length_expr := dialect.sql_expr_conditional cache.non_missing_and_valid_condition
    (dialect.sql_expr_length qualified_column_name)
  let numeric_expr := if f.is_number then qualified_column_name
    else f.numeric_text_expr.getD "None"
  (if f.is_missing_enabled then
    [dialect.sql_expr_count_conditional cache.missing_condition] else [])
  ++ (if f.is_valid_enabled then
    [dialect.sql_expr_count_conditional cache.non_missing_and_valid_condition] else [])
  ++ (if f.is_text then
       (if cfg.is_metric_enabled col.name .min_length then
         [dialect.sql_expr_min length_expr] else [])
       ++ (if cfg.is_metric_enabled col.name .max_length then
         [dialect.sql_expr_max length_expr] else [])
     else [])
  ++ (if f.is_number || f.is_column_numeric_text_format then
       (if cfg.is_metric_enabled col.name .min then
         [dialect.sql_expr_min numeric_expr] else [])
       ++ (if cfg.is_metric_enabled col.name .max then
         [dialect.sql_expr_max numeric_expr] else [])
       ++ (if cfg.is_metric_enabled col.name .avg then
         [dialect.sql_expr_avg numeric_expr] else [])
       ++ (if cfg.is_metric_enabled col.name .sum then
         [dialect.sql_expr_sum numeric_expr] else [])
     else [])

/-- The placeholder Measurements `Scan.query_aggregations` appends for one
column, grown by the same conditional appends as `columnAggFields`. -/
def columnAggMeasurements (dialect : Dialect) (cfg : ScanConfiguration)
    (cache : ScanColumnCache) (col : Column) : List Measurement :=
  let f := columnFlags dialect cfg cache col
  (if f.is_missing_enabled then
    [{ metric := .missing_count, column_name := some col.name }] else [])
  ++ (if f.is_valid_enabled then
    [{ metric := .valid_count, column_name := some col.name }] else [])
  ++ (if f.is_text then
       (if cfg.is_metric_enabled col.name .min_length then
         [{ metric := .min_length, column_name := some col.name }] else [])
       ++ (if cfg.is_metric_enabled col.name .max_length then
         [{ metric := .max_length, column_name := some col.name }] else [])
     else [])
  ++ (if f.is_number || f.is_column_numeric_text_format then
       (if cfg.is_metric_enabled col.name .min then
         [{ metric := .min, column_name := some col.name }] else [])
       ++ (if cfg.is_metric_enabled col.name .max then
         [{ metric := .max, column_name := some col.name }] else [])
       ++ (if cfg.is_metric_enabled col.name .avg then
         [{ metric := .avg, column_name := some col.name }] else [])
       ++ (if cfg.is_metric_enabled col.name .sum then
         [{ metric := .sum, column_name := some col.name }] else [])
     else [])

/-- The `metric_indices` dict entry recorded for one column: the positions
of the column's missing-count and valid-count placeholders in the global
measurement list, where `start` is the length of that list when the column
is reached (`metric_indices['missing'] = len(measurements)` before the
missing append, likewise for valid). -/
structure MetricIndices where
  missing : Option Nat
  valid : Option Nat
deriving DecidableEq, Repr

/-- The metric indices for one column starting at global position
`start`. -/
def columnMetricIndices (dialect : Dialect) (cfg : ScanConfiguration)
    (cache : ScanColumnCache) (col : Column) (start : Nat) : MetricIndices :=
  let f := columnFlags dialect cfg cache col
  { missing := if f.is_missing_enabled then some start else none
    valid := if f.is_valid_enabled then
      some (start + (if f.is_missing_enabled then 1 else 0)) else none }

/-- The column loop of `Scan.query_aggregations` (lines 108-178): walks the
columns in discovery order, appending each column's SQL fields and
placeholder Measurements and recording its metric indices; `start` is the
number of measurements already appended (1 at the top, for row count). -/
def aggregationBlocks (dialect : Dialect) (cfg : ScanConfiguration)
    (caches : String → ScanColumnCache) :
    List Column → Nat → List (String × MetricIndices) × List String × List Measurement
  | [], _ => ([], [], [])
  | col :: rest, start =>
    let fs := columnAggFields dialect cfg (caches col.name) col
    let ms := columnAggMeasurements dialect cfg (caches col.name) col
    let mi := columnMetricIndices dialect cfg (caches col.name) col start
    let r := aggregationBlocks dialect cfg caches rest (start + ms.length)
    ((col.name, mi) :: r.1, fs ++ r.2.1, ms ++ r.2.2)

/-- The full SQL field list of the aggregation query: the unconditional
count-all field first (line 101), then the per-column fields. -/
def aggregationFields (dialect : Dialect) (cfg : ScanConfiguration)
    (caches : String → ScanColumnCache) (columns : List Column) : List String :=
  dialect.sql_expr_count_all :: (aggregationBlocks dialect cfg caches columns 1).2.1

/-- The full placeholder Measurement list of the aggregation query: the
unconditional row-count Measurement first (line 102), then the per-column
placeholders. -/
def rawAggMeasurements (dialect : Dialect) (cfg : ScanConfiguration)
    (caches : String → ScanColumnCache) (columns : List Column) : List Measurement :=
  { metric := Metric.row_count } :: (aggregationBlocks dialect cfg caches columns 1).2.2

/-- The `column_metric_indices` dict built by the column loop (the list
keeps dict insertion order; column names key it). -/
def columnMetricIndexDict (dialect : Dialect) (cfg : ScanConfiguration)
    (caches : String → ScanColumnCache) (columns : List Column) :
    List (String × MetricIndices) :=
  (aggregationBlocks dialect cfg caches columns 1).1

/-- Python dict lookup on an insertion-ordered association list: the most
recent binding of the key wins. -/
def dictGet {α : Type} (d : List (String × α)) (k : String) : Option α :=
  (d.filter (fun p => p.1 = k)).getLast?.map (fun p => p.2)

/-- The fill loop of `Scan.query_aggregations` (lines 187-189): result
tuple cell `i` becomes the value of Measurement `i`; Python raises
`IndexError` when the tuple has fewer cells than there are measurements. -/
def fillValues : List Measurement → List Value → Except String (List Measurement)
  | [], _ => .ok []
  | _ :: _, [] => .error "IndexError: tuple index out of range"
  | m :: ms, v :: vs =>
    match fillValues ms vs with
    | .error e => .error e
    | .ok rest => .ok ({ m with value := some v } :: rest)

/-- Extracts the numeric value of `measurements[i]` the way Python
arithmetic would: `IndexError` past the end, `TypeError` when the value is
`None` or not a number. -/
def measurementNumAt (ms : List Measurement) (i : Nat) : Except String ℚ :=
  match ms[i]? with
  | none => .error "IndexError: list index out of range"
  | some m =>
    match m.value with
    | some (.num q) => .ok q
    | _ => .error "TypeError: unsupported operand type"

/-- Extracts a numeric value from an optional measurement value, raising
`TypeError` as Python arithmetic on `None` or a non-number would. -/
def numValue : Option Value → Except String ℚ
  | some (.num q) => .ok q
  | _ => .error "TypeError: unsupported operand type"

/-- The derived missing percentage (line 200):
`missing_count * 100 / row_count`. -/
def missing_percentage_of (row_count missing_count : ℚ) : ℚ :=
  missing_count * 100 / row_count

/-- The derived values count (line 201): `row_count - missing_count`. -/
def values_count_of (row_count missing_count : ℚ) : ℚ :=
  row_count - missing_count

/-- The derived values percentage (line 202):
`values_count * 100 / row_count`. -/
def values_percentage_of (row_count missing_count : ℚ) : ℚ :=
  values_count_of row_count missing_count * 100 / row_count

/-- The derived invalid count (line 210):
`row_count - missing_count - valid_count`. -/
def invalid_count_of (row_count missing_count valid_count : ℚ) : ℚ :=
  row_count - missing_count - valid_count

/-- The derived invalid percentage (line 211):
`invalid_count * 100 / row_count`. -/
def invalid_percentage_of (row_count missing_count valid_count : ℚ) : ℚ :=
  invalid_count_of row_count missing_count valid_count * 100 / row_count

/-- The derived valid percentage (line 212):
`valid_count * 100 / row_count`. -/
def valid_percentage_of (row_count valid_count : ℚ) : ℚ :=
  valid_count * 100 / row_count

/-- The derived measurements `Scan.query_aggregations` computes for one
column (lines 196-215): nothing when the column has no missing index;
otherwise missing percentage, values count and values percentage, and —
when a valid index also exists — invalid percentage, invalid count and
valid percentage (appended in exactly that order, lines 213-215).  Each
division raises `ZeroDivisionError` when `row_count` is zero, and reading
a non-numeric (or unfilled) measurement value raises `TypeError`. -/
def deriveColumn (ms : List Measurement) (row_count_value : Option Value)
    (column_name : String) (mi : MetricIndices) : Except String (List Measurement) :=
  match mi.missing with
  | none => .ok []
  | some missing_index => do
    let missing_count ← measurementNumAt ms missing_index
    let row_count ← numValue row_count_value
    let missing_percentage ← pyDiv (missing_count * 100) row_count
    let values_count := values_count_of row_count missing_count
    let values_percentage ← pyDiv (values_count * 100) row_count
    let base : List Measurement :=
      [{ metric := .missing_percentage, column_name := some column_name,
         value := some (.num missing_percentage) },
       { metric := .values_count, column_name := some column_name,
         value := some (.num values_count) },
       { metric := .values_percentage, column_name := some column_name,
         value := some (.num values_percentage) }]
    match mi.valid with
    | none => .ok base
    | some valid_index => do
      let valid_count ← measurementNumAt ms valid_index
      let invalid_count := invalid_count_of row_count missing_count valid_count
      let invalid_percentage ← pyDiv (invalid_count * 100) row_count
      let valid_percentage ← pyDiv (valid_count * 100) row_count
      .ok (base ++
        [{ metric := .invalid_percentage, column_name := some column_name,
           value := some (.num invalid_percentage) },
         { metric := .invalid_count, column_name := some column_name,
           value := some (.num invalid_count) },
         { metric := .valid_percentage, column_name := some column_name,
           value := some (.num valid_percentage) }])

/-- The derived pass of `Scan.query_aggregations` (lines 192-218):
`row_count = measurements[0].value`, then each column's derived
measurements in column order (`column_metric_indices[column.name]` is the
dict lookup; every column was inserted by the first loop). -/
def deriveMeasurements (columns : List Column)
    (indices : List (String × MetricIndices))
    (ms : List Measurement) : Except String (List Measurement) := do
  match ms[0]? with
  | none => .error "IndexError: list index out of range"
  | some m0 =>
    exceptMapFlatten (fun col =>
      match dictGet indices col.name with
      | some mi => deriveColumn ms m0.value col.name mi
      | none => .error "KeyError") columns

/-- The SQL text of the aggregation query (lines 180-183). -/
def aggregationSQL (dialect : Dialect) (cfg : ScanConfiguration)
    (fields : List String) (table_sample_clause : Option String) : String :=
  let sql := "SELECT \n  " ++ String.intercalate ",\n  " fields ++ " \n"
    ++ "FROM " ++ dialect.qualify_table_name cfg.table_name
  match table_sample_clause with
  | some c => sql ++ "\n" ++ c
  | none => sql

/-- The whole of `Scan.query_aggregations`: build the field and placeholder
lists, execute the single wide query, fill values positionally, run the
derived pass, and return raw-filled plus derived measurements. -/
def query_aggregations (dialect : Dialect) (cfg : ScanConfiguration)
    (caches : String → ScanColumnCache) (columns : List Column)
    (warehouse : Warehouse) (table_sample_clause : Option String) :
    Except String (List Measurement) := do
  let fields := aggregationFields dialect cfg caches columns
  let ms := rawAggMeasurements dialect cfg caches columns
  let indices := columnMetricIndexDict dialect cfg caches columns
  let sql := aggregationSQL dialect cfg fields table_sample_clause
  let query_result_tuple := warehouse.execute_query_one sql
  let filled ← fillValues ms query_result_tuple
  let derived ← deriveMeasurements columns indices filled
  .ok (filled ++ derived)

/-- Modelled from the spec: `ScanResult` lookup by (metric, column name) —
the value of the matching measurement, or Python `None` (here `none`) when
no measurement matches. -/
def scan_result_get (ms : List Measurement) (metric : Metric)
    (column_name : String) : Option Value :=
  (ms.find? (fun m =>
    decide (m.metric = metric) && decide (m.column_name = some column_name))).bind
    (fun m => m.value)

/-- Extracts cell `i` of a result tuple as a number: `IndexError` past the
end, `TypeError` for a non-numeric cell used in arithmetic. -/
def listNumAt (l : List Value) (i : Nat) : Except String ℚ :=
  match l[i]? with
  | none => .error "IndexError: tuple index out of range"
  | some v => numValue (some v)

/-- The uniqueness derivation of `Scan.query_group_by_value` (line 275):
`(distinct_count - 1) * 100 / (valid_count - 1)`. -/
def uniqueness_formula (distinct_count valid_count : ℚ) : ℚ :=
  (distinct_count - 1) * 100 / (valid_count - 1)

/-- The `group_by_value` common-table-expression text (lines 243-252). -/
def group_by_cte (dialect : Dialect) (cfg : ScanConfiguration)
    (cache : ScanColumnCache) (col : Column)
    (table_sample_clause : Option String) : String :=
  let qualified_column_name := dialect.qualify_column_name col.name
  let qualified_table_name := dialect.qualify_table_name cfg.table_name
  let sample := match table_sample_clause with
    | some c => "\n    AND " ++ c ++ " \n"
    | none => ""
  "WITH group_by_value AS ( \n"
    ++ "  SELECT \n"
    ++ "    " ++ qualified_column_name ++ " AS value, \n"
    ++ "    COUNT(*) AS frequency"
    ++ "  FROM " ++ qualified_table_name ++ " \n"
    ++ "  WHERE " ++ cache.non_missing_and_valid_condition ++ " " ++ sample ++ "\n"
    ++ "  GROUP BY " ++ qualified_column_name ++ " \n"
    ++ ")"

/-- The distinct/unique-count query text (lines 257-260). -/
def trioSQL (cte : String) : String :=
  cte ++ " \n"
    ++ "SELECT COUNT(*), \n"
    ++ "       COUNT(CASE WHEN frequency = 1 THEN 1 END) \n"
    ++ "FROM group_by_value"

/-- The mins/maxs query text (lines 283-287 and 297-301). -/
def minsMaxsSQL (cte numeric_expr direction : String) (limit : Nat) : String :=
  cte ++ " \n"
    ++ "SELECT value \n"
    ++ "FROM group_by_value \n"
    ++ "ORDER BY " ++ numeric_expr ++ " " ++ direction ++ " \n"
    ++ "LIMIT " ++ toString limit ++ " \n"

/-- The frequent-values query text (lines 312-316). -/
def frequentValuesSQL (cte : String) (limit : Nat) : String :=
  cte ++ " \n"
    ++ "SELECT value \n"
    ++ "FROM group_by_value \n"
    ++ "ORDER BY frequency DESC \n"
    ++ "LIMIT " ++ toString limit ++ " \n"

/-- The distinct / unique-count / uniqueness block of
`Scan.query_group_by_value` (lines 254-278): one query returns the tuple
(distinct count, count of frequency-1 groups); the two counts are recorded
as measurements, then uniqueness is derived from the distinct count and
the valid count looked up in the scan result.  A missing valid count makes
the subtraction raise `TypeError`; a valid count of 1 makes the division
raise `ZeroDivisionError`.  (The two counts are read as numbers up front;
Python would store arbitrary cells and only fail at the uniqueness
arithmetic, with the same observable successes.) -/
def group_by_trio (scan_measurements : List Measurement) (warehouse : Warehouse)
    (sql : String) (column_name : String) : Except String (List Measurement) := do
  let query_result_tuple := warehouse.execute_query_one sql
  let distinct_count ← listNumAt query_result_tuple 0
  let unique_count ← listNumAt query_result_tuple 1
  let valid_count ← numValue (scan_result_get scan_measurements .valid_count column_name)
  let uniqueness ← pyDiv ((distinct_count - 1) * 100) (valid_count - 1)
  .ok [{ metric := .distinct, column_name := some column_name,
         value := some (.num distinct_count) },
       { metric := .unique_count, column_name := some column_name,
         value := some (.num unique_count) },
       { metric := .uniqueness, column_name := some column_name,
         value := some (.num uniqueness) }]

/-- One column of `Scan.query_group_by_value` (lines 227-321): nothing
unless one of the six group-by metrics is enabled; otherwise the
distinct/unique-count/uniqueness block when any of those three is enabled,
then mins, maxs and frequent values, each gated on its metric being
enabled and the column being numeric or numeric-text.  (The embedded
mins/maxs/frequent lists hold numbers; the guard restricts these metrics
to numeric or numeric-text columns.) -/
def group_by_column (dialect : Dialect) (cfg : ScanConfiguration)
    (cache : ScanColumnCache) (col : Column) (warehouse : Warehouse)
    (scan_measurements : List Measurement)
    (table_sample_clause : Option String) : Except String (List Measurement) :=
  if cfg.is_any_metric_enabled col.name
      [.distinct, .uniqueness, .unique_count, .mins, .maxs, .frequent_values] then do
    let f := columnFlags dialect cfg cache col
    let mins_maxs_limit := cfg.get_mins_maxs_limit col.name
    let numeric_expr := if f.is_number then "value"
      else dialect.sql_expr_cast_text_to_number "value"
        (match f.validity_format with | some s => s | none => "None")
    let cte := group_by_cte dialect cfg cache col table_sample_clause
    let trio ←
      if cfg.is_any_metric_enabled col.name [.distinct, .uniqueness, .unique_count] then
        group_by_trio scan_measurements warehouse (trioSQL cte) col.name
      else .ok []
    let minsMs ←
      if cfg.is_metric_enabled col.name .mins
          && (f.is_number || f.is_column_numeric_text_format) then do
        let rows := warehouse.execute_query_all
          (minsMaxsSQL cte numeric_expr "ASC" mins_maxs_limit)
        let vals ← exceptMap (fun row => listNumAt row 0) rows
        .ok [({ metric := .mins, column_name := some col.name,
                value := some (.vlist vals) } : Measurement)]
      else .ok []
    let maxsMs ←
      if cfg.is_metric_enabled col.name .maxs
          && (f.is_number || f.is_column_numeric_text_format) then do
        let rows := warehouse.execute_query_all
          (minsMaxsSQL cte numeric_expr "DESC" mins_maxs_limit)
        let vals ← exceptMap (fun row => listNumAt row 0) rows
        .ok [({ metric := .maxs, column_name := some col.name,
                value := some (.vlist vals) } : Measurement)]
      else .ok []
    let freqMs ←
      if cfg.is_metric_enabled col.name .frequent_values
          && (f.is_number || f.is_column_numeric_text_format) then do
        let rows := warehouse.execute_query_all
          (frequentValuesSQL cte (cfg.get_frequent_values_limit col.name))
        let vals ← exceptMap (fun row => listNumAt row 0) rows
        .ok [({ metric := .frequent_values, column_name := some col.name,
                value := some (.vlist vals) } : Measurement)]
      else .ok []
    .ok (trio ++ minsMs ++ maxsMs ++ freqMs)
  else .ok []

/-- The whole of `Scan.query_group_by_value`: the per-column blocks in
discovery order; an exception in any block aborts the pass. -/
def query_group_by_value (dialect : Dialect) (cfg : ScanConfiguration)
    (caches : String → ScanColumnCache) (columns : List Column)
    (warehouse : Warehouse) (scan_measurements : List Measurement)
    (table_sample_clause : Option String) : Except String (List Measurement) :=
  exceptMapFlatten (fun col =>
    group_by_column dialect cfg (caches col.name) col warehouse
      scan_measurements table_sample_clause) columns

/-- Modelled from Python: `eval(test, test_values)` injects `__builtins__`
into the globals dict, so an unbound name that is a builtin resolves to
the builtin function instead of raising `NameError`.  These are the
builtin names the scan's rule expressions can meet; they include the
metric names `min`, `max` and `sum`. -/
def pythonBuiltins : List String :=
  ["abs", "all", "any", "len", "max", "min", "pow", "round", "sum"]

/-- Python truthiness of a value (`True if v else False`); functions are
truthy. -/
def truthy : Value → Bool
  | .num q => decide (q ≠ 0)
  | .boolean b => b
  | .str s => decide (s ≠ "")
  | .null => false
  | .vlist qs => decide (qs ≠ [])
  | .builtin _ => true

/-- The numeric reading of a value in Python arithmetic and comparisons
(booleans are the integers 0 and 1; strings, `None` and lists have
none). -/
def toNumber : Value → Option ℚ
  | .num q => some q
  | .boolean b => some (if b then 1 else 0)
  | _ => none

/-- Evaluation of a rule expression the way `eval(test, test_values)`
does: names are looked up in the bound mapping, an unbound name falls
back to the injected builtins and only raises `NameError` when it is no
builtin either; comparisons and arithmetic work on numbers (else
`TypeError` — in particular against a builtin function), equality on
numbers or structurally (silently `False` across types, as in Python),
and `and`/`or` short-circuit on truthiness returning an operand. -/
def evalTExpr (env : String → Option Value) : TExpr → Except String Value
  | .var n =>
    match env n with
    | some v => .ok v
    | none =>
      if pythonBuiltins.contains n then .ok (.builtin n)
      else .error ("NameError: name " ++ n ++ " is not defined")
  | .lit n => .ok (.num n)
  | .lt a b => do
    let va ← evalTExpr env a
    let vb ← evalTExpr env b
    match toNumber va, toNumber vb with
    | some x, some y => .ok (.boolean (decide (x < y)))
    | _, _ => .error "TypeError: unsupported comparison"
  | .le a b => do
    let va ← evalTExpr env a
    let vb ← evalTExpr env b
    match toNumber va, toNumber vb with
    | some x, some y => .ok (.boolean (decide (x ≤ y)))
    | _, _ => .error "TypeError: unsupported comparison"
  | .gt a b => do
    let va ← evalTExpr env a
    let vb ← evalTExpr env b
    match toNumber va, toNumber vb with
    | some x, some y => .ok (.boolean (decide (y < x)))
    | _, _ => .error "TypeError: unsupported comparison"
  | .ge a b => do
    let va ← evalTExpr env a
    let vb ← evalTExpr env b
    match toNumber va, toNumber vb with
    | some x, some y => .ok (.boolean (decide (y ≤ x)))
    | _, _ => .error "TypeError: unsupported comparison"
  | .eq a b => do
    let va ← evalTExpr env a
    let vb ← evalTExpr env b
    match toNumber va, toNumber vb with
    | some x, some y => .ok (.boolean (decide (x = y)))
    | _, _ => .ok (.boolean (decide (va = vb)))
  | .ne a b => do
    let va ← evalTExpr env a
    let vb ← evalTExpr env b
    match toNumber va, toNumber vb with
    | some x, some y => .ok (.boolean (decide (x ≠ y)))
    | _, _ => .ok (.boolean (decide (va ≠ vb)))
  | .conj a b => do
    let va ← evalTExpr env a
    if truthy va then evalTExpr env b else .ok va
  | .disj a b => do
    let va ← evalTExpr env a
    if truthy va then .ok va else evalTExpr env b
  | .neg a => do
    let va ← evalTExpr env a
    .ok (.boolean (!truthy va))
  | .add a b => do
    let va ← evalTExpr env a
    let vb ← evalTExpr env b
    match toNumber va, toNumber vb with
    | some x, some y => .ok (.num (x + y))
    | _, _ => .error "TypeError: unsupported operand type"
  | .mul a b => do
    let va ← evalTExpr env a
    let vb ← evalTExpr env b
    match toNumber va, toNumber vb with
    | some x, some y => .ok (.num (x * y))
    | _, _ => .error "TypeError: unsupported operand type"

/-- Modelled from the spec: a test result records the boolean outcome, the
evaluated expression, the exact bound values used, and the column name. -/
structure TestResult where
  outcome : Bool
  test : TExpr
  values : List (Metric × Value)
  column_name : String
deriving Repr

/-- The per-column metric-value dict of `Scan.run_tests` (lines 331-335):
metric and value of every scan-result measurement whose column name
matches, in insertion order (later bindings of the same metric shadow
earlier ones, as in a Python dict). -/
def column_measurement_values (ms : List Measurement)
    (column_name : String) : List (Metric × Value) :=
  (ms.filter (fun m => decide (m.column_name = some column_name))).map
    (fun m => (m.metric, m.value.getD .null))

/-- The per-test bound-value dict of `Scan.run_tests` (line 337): the
metric values whose metric name occurs as a substring of the test's source
text (`if metric in test`). -/
def test_values (cmv : List (Metric × Value)) (t : TExpr) : List (Metric × Value) :=
  cmv.filter (fun p => strContains t.text p.1.text)

/-- The evaluation globals Python builds from the bound-value dict: each
metric name maps to its (most recent) bound value. -/
def envOf (tv : List (Metric × Value)) : String → Option Value :=
  fun s => ((tv.filter (fun p => decide (p.1.text = s))).getLast?).map (fun p => p.2)

/-- The whole of `Scan.run_tests` (lines 325-340): for every configured
column, bind the column's computed metric values, restrict them per test
by substring match, evaluate the test over those globals, and record a
TestResult with the truthiness of the evaluated value.  An evaluation
exception (such as `NameError`) propagates and aborts the pass. -/
def run_tests (cfg : ScanConfiguration)
    (scan_measurements : List Measurement) : Except String (List TestResult) :=
  exceptMapFlatten (fun p =>
    let column_name := p.1
    let cmv := column_measurement_values scan_measurements column_name
    exceptMap (fun test => do
      let tv := test_values cmv test
      let v ← evalTExpr (envOf tv) test
      .ok ({ outcome := truthy v, test := test, values := tv,
             column_name := column_name } : TestResult)) p.2.tests) cfg.columns

/-! ### Concrete instances

A sample dialect, columns, caches, configurations and warehouses, used to
evaluate the embedded engine on the specification's worked examples (the
ten-row `age` table of section 8, the `email` uniqueness example, and the
degenerate zero-row / missing-metric scenarios). -/

/-- A plain SQL dialect instance for concrete evaluation. -/
def testDialect : Dialect where
  sql_expr_count_all := "COUNT(*)"
  sql_expr_count_conditional := fun c => "COUNT(CASE WHEN " ++ c ++ " THEN 1 END)"
  sql_expr_conditional := fun c e => "CASE WHEN " ++ c ++ " THEN " ++ e ++ " END"
  sql_expr_min := fun e => "MIN(" ++ e ++ ")"
  sql_expr_max := fun e => "MAX(" ++ e ++ ")"
  sql_expr_avg := fun e => "AVG(" ++ e ++ ")"
  sql_expr_sum := fun e => "SUM(" ++ e ++ ")"
  sql_expr_length := fun e => "LENGTH(" ++ e ++ ")"
  sql_expr_cast_text_to_number := fun e f => "CAST(" ++ e ++ " AS " ++ f ++ ")"
  qualify_column_name := fun n => n
  qualify_table_name := fun n => n
  is_text := fun c => decide (c.type = "varchar")
  is_number := fun c => decide (c.type = "number")

/-- The numeric `age` column of the specification's worked example. -/
def ageCol : Column := ⟨"age", "number", true⟩

/-- The text `email` column of the specification's uniqueness example. -/
def emailCol : Column := ⟨"email", "varchar", true⟩

/-- A column cache with a configured validity and missing metric. -/
def ageCache : ScanColumnCache where
  validity := some "age_validity"
  is_validity_metric_enabled := true
  is_missing_metric_enabled := true
  missing_condition := "age IS NULL"
  non_missing_and_valid_condition := "age IS NOT NULL"

/-- A column cache with no validity configured and no missing metric. -/
def plainCache : ScanColumnCache where
  validity := none
  is_validity_metric_enabled := false
  is_missing_metric_enabled := false
  missing_condition := "email IS NULL"
  non_missing_and_valid_condition := "email IS NOT NULL"

/-- Every column maps to the `age` cache. -/
def ageCaches : String → ScanColumnCache := fun _ => ageCache

/-- Every column maps to the plain cache. -/
def plainCaches : String → ScanColumnCache := fun _ => plainCache

/-- Configuration for the worked example: min and max enabled on `age`,
one rule `missing_percentage < 10` configured on `age`. -/
def ageCfg : ScanConfiguration where
  table_name := "people"
  is_metric_enabled := fun n m =>
    decide (n = "age") && (decide (m = Metric.min) || decide (m = Metric.max))
  get_validity_format := fun _ => none
  columns := [("age", ⟨[TExpr.lt (.var "missing_percentage") (.lit 10)]⟩)]
  get_mins_maxs_limit := fun _ => 5
  get_frequent_values_limit := fun _ => 5

/-- Configuration enabling only the distinct metric on `email`. -/
def distinctCfg : ScanConfiguration where
  table_name := "people"
  is_metric_enabled := fun n m => decide (n = "email") && decide (m = Metric.distinct)
  get_validity_format := fun _ => none
  columns := []
  get_mins_maxs_limit := fun _ => 5
  get_frequent_values_limit := fun _ => 5

/-- Configuration enabling only the unique-count metric on `email`. -/
def uniqueCountCfg : ScanConfiguration where
  table_name := "people"
  is_metric_enabled := fun n m => decide (n = "email") && decide (m = Metric.unique_count)
  get_validity_format := fun _ => none
  columns := []
  get_mins_maxs_limit := fun _ => 5
  get_frequent_values_limit := fun _ => 5

/-- Configuration with a single rule on `age` referencing the
never-computed metric `missing_percentage` (a name that is no Python
builtin). -/
def badTestCfg : ScanConfiguration where
  table_name := "people"
  is_metric_enabled := fun _ _ => false
  get_validity_format := fun _ => none
  columns := [("age", ⟨[TExpr.lt (.var "missing_percentage") (.lit 10)]⟩)]
  get_mins_maxs_limit := fun _ => 5
  get_frequent_values_limit := fun _ => 5

/-- Configuration with a single rule on `age` testing the never-computed
metric `min` — a name that collides with the Python builtin `min` — for
equality. -/
def builtinEqCfg : ScanConfiguration where
  table_name := "people"
  is_metric_enabled := fun _ _ => false
  get_validity_format := fun _ => none
  columns := [("age", ⟨[TExpr.eq (.var "min") (.lit 100)]⟩)]
  get_mins_maxs_limit := fun _ => 5
  get_frequent_values_limit := fun _ => 5

/-- Scan measurements holding only a table-level row count. -/
def rowCountOnlyMeasurements : List Measurement :=
  [{ metric := .row_count, value := some (.num 10) }]

/-- Warehouse of the worked example: 10 rows, 2 missing, 8 valid,
min 18, max 65. -/
def ageWarehouse : Warehouse where
  execute_query_one := fun _ => [.num 10, .num 2, .num 8, .num 18, .num 65]
  execute_query_all := fun _ => []

/-- Warehouse for a zero-row table (all aggregate counts zero, the min and
max aggregates NULL). -/
def zeroRowWarehouse : Warehouse where
  execute_query_one := fun _ => [.num 0, .num 0, .num 0, .null, .null]
  execute_query_all := fun _ => []

/-- Warehouse whose group-by query reports 5 distinct groups, 3 of them
singletons. -/
def trioWarehouse : Warehouse where
  execute_query_one := fun _ => [.num 5, .num 3]
  execute_query_all := fun _ => []

/-- Scan measurements holding a valid count of 8 for `email`. -/
def emailScanMeasurements : List Measurement :=
  [{ metric := .valid_count, column_name := some "email", value := some (.num 8) }]

/-- Scan measurements holding a valid count of 1 for `email`. -/
def emailValidOneMeasurements : List Measurement :=
  [{ metric := .valid_count, column_name := some "email", value := some (.num 1) }]

/-- The worked example's filled aggregation measurements. -/
def ageFilled : List Measurement :=
  [{ metric := .row_count, value := some (.num 10) },
   { metric := .missing_count, column_name := some "age", value := some (.num 2) },
   { metric := .valid_count, column_name := some "age", value := some (.num 8) },
   { metric := .min, column_name := some "age", value := some (.num 18) },
   { metric := .max, column_name := some "age", value := some (.num 65) }]

/-- A bound-value dict holding both a valid count and an invalid count. -/
def leakCmv : List (Metric × Value) :=
  [(Metric.valid_count, Value.num 8), (Metric.invalid_count, Value.num 0)]

/-- The rule expression `invalid_count < 5`. -/
def leakTest : TExpr := .lt (.var "invalid_count") (.lit 5)

/-- An environment binding `invalid_count` to 0, built the way `run_tests`
builds its evaluation globals. -/
def leakEnvA : String → Option Value := envOf [(Metric.invalid_count, Value.num 0)]

/-- The same binding of `invalid_count` to 0, written as a direct
function. -/
def leakEnvB : String → Option Value :=
  fun s => if "invalid_count" = s then some (.num 0) else none

/-! ### Helper lemmas -/

/-- Binding a successful `Except` computation applies the continuation. -/
theorem except_ok_bind {α β : Type} (a : α) (f : α → Except String β) :
    (Except.ok a >>= f) = f a := rfl

/-- Binding a raised `Except` computation propagates the exception. -/
theorem except_error_bind {α β : Type} (e : String) (f : α → Except String β) :
    ((Except.error e : Except String α) >>= f) = .error e := rfl

/-- Membership in a conditional singleton-or-empty append block. -/
theorem mem_ite_nil_iff {α : Type} {b : Bool} {l : List α} {a : α} :
    (a ∈ if b then l else []) ↔ (b = true ∧ a ∈ l) := by
  cases b <;> simp

/-- One column appends the same number of SQL fields and placeholder
Measurements: every conditional append in `Scan.query_aggregations`
touches both lists. -/
theorem columnAgg_length_eq (dialect : Dialect) (cfg : ScanConfiguration)
    (cache : ScanColumnCache) (col : Column) :
    (columnAggFields dialect cfg cache col).length =
      (columnAggMeasurements dialect cfg cache col).length := by
  simp [columnAggFields, columnAggMeasurements, apply_ite List.length]

/-- The column loop preserves the fields/measurements length balance. -/
theorem aggregationBlocks_length (dialect : Dialect) (cfg : ScanConfiguration)
    (caches : String → ScanColumnCache) (cols : List Column) : ∀ (s : Nat),
    (aggregationBlocks dialect cfg caches cols s).2.1.length =
      (aggregationBlocks dialect cfg caches cols s).2.2.length := by
  induction cols with
  | nil => intro s; rfl
  | cons c rest ih =>
    intro s
    simp [aggregationBlocks, columnAgg_length_eq, ih]

/-- When the fill loop succeeds, position `i` of the filled list is the
`i`-th placeholder carrying the `i`-th result cell as its value. -/
theorem fillValues_ok_get (ms : List Measurement) :
    ∀ (result : List Value) (filled : List Measurement),
      fillValues ms result = .ok filled →
      ∀ (i : Nat) (m : Measurement) (v : Value),
        ms[i]? = some m → result[i]? = some v →
        filled[i]? = some { m with value := some v } := by
  induction ms with
  | nil =>
    intro result filled h i m v hm hv
    simp at hm
  | cons m0 rest ih =>
    intro result filled h i m v hm hv
    cases result with
    | nil => simp [fillValues] at h
    | cons v0 vs =>
      rw [fillValues] at h
      cases hr : fillValues rest vs with
      | error e => rw [hr] at h; simp at h
      | ok r =>
        rw [hr] at h
        simp at h
        subst h
        cases i with
        | zero =>
          simp at hm hv
          subst hm; subst hv; simp
        | succ n =>
          simp at hm hv
          simpa using ih vs r hr n m v hm hv

/-- Any enabled distinct/uniqueness metric turns on both the valid and the
missing flag for the column. -/
theorem columnFlags_enabled_of_any (dialect : Dialect) (cfg : ScanConfiguration)
    (cache : ScanColumnCache) (col : Column)
    (h : cfg.is_any_metric_enabled col.name [.distinct, .uniqueness] = true) :
    (columnFlags dialect cfg cache col).is_valid_enabled = true ∧
    (columnFlags dialect cfg cache col).is_missing_enabled = true := by
  simp [columnFlags, h]

/-- With both flags on, the column block holds the missing-count and
valid-count placeholders for the column. -/
theorem mem_columnAgg_missing_valid (dialect : Dialect) (cfg : ScanConfiguration)
    (cache : ScanColumnCache) (col : Column)
    (hm : (columnFlags dialect cfg cache col).is_missing_enabled = true)
    (hv : (columnFlags dialect cfg cache col).is_valid_enabled = true) :
    ({ metric := .missing_count, column_name := some col.name, value := none } :
      Measurement) ∈ columnAggMeasurements dialect cfg cache col ∧
    ({ metric := .valid_count, column_name := some col.name, value := none } :
      Measurement) ∈ columnAggMeasurements dialect cfg cache col := by
  rw [columnAggMeasurements, hm, hv]
  simp

/-- A measurement of a listed column's block is in the loop's output. -/
theorem mem_blocks_of_mem (dialect : Dialect) (cfg : ScanConfiguration)
    (caches : String → ScanColumnCache) (cols : List Column) (col : Column)
    (hcol : col ∈ cols) (m : Measurement)
    (hm : m ∈ columnAggMeasurements dialect cfg (caches col.name) col) :
    ∀ s, m ∈ (aggregationBlocks dialect cfg caches cols s).2.2 := by
  induction cols with
  | nil => cases hcol
  | cons c rest ih =>
    intro s
    rw [aggregationBlocks]
    rcases List.mem_cons.1 hcol with h | h
    · subst h
      exact List.mem_append_left _ hm
    · exact List.mem_append_right _ (ih h _)

/-- Every measurement the column loop emits belongs to some listed
column's block. -/
theorem blocks_mem_exists (dialect : Dialect) (cfg : ScanConfiguration)
    (caches : String → ScanColumnCache) (cols : List Column) :
    ∀ (s : Nat) (m : Measurement),
      m ∈ (aggregationBlocks dialect cfg caches cols s).2.2 →
      ∃ c, c ∈ cols ∧ m ∈ columnAggMeasurements dialect cfg (caches c.name) c := by
  induction cols with
  | nil => intro s m hm; simp [aggregationBlocks] at hm
  | cons c rest ih =>
    intro s m hm
    rw [aggregationBlocks] at hm
    rcases List.mem_append.1 hm with h | h
    · exact ⟨c, List.mem_cons_self c rest, h⟩
    · obtain ⟨c2, hc2, hm2⟩ := ih _ m h
      exact ⟨c2, List.mem_cons_of_mem _ hc2, hm2⟩

/-- Every measurement of a column block names that column, and a
valid-count measurement only appears when the valid flag is on. -/
theorem columnAgg_mem_info (dialect : Dialect) (cfg : ScanConfiguration)
    (cache : ScanColumnCache) (col : Column) (m : Measurement)
    (hm : m ∈ columnAggMeasurements dialect cfg cache col) :
    m.column_name = some col.name ∧
    (m.metric = .valid_count →
      (columnFlags dialect cfg cache col).is_valid_enabled = true) := by
  rw [columnAggMeasurements] at hm
  simp only [List.mem_append, mem_ite_nil_iff, List.mem_singleton] at hm
  rcases hm with ((⟨h1, rfl⟩ | ⟨h1, rfl⟩) | ⟨h1, ⟨h2, rfl⟩ | ⟨h2, rfl⟩⟩) |
    ⟨h1, ((⟨h2, rfl⟩ | ⟨h2, rfl⟩) | ⟨h2, rfl⟩) | ⟨h2, rfl⟩⟩ <;> simp_all

/-- The derived pass only emits percentage/count metrics, never a
valid-count measurement. -/
theorem deriveColumn_no_valid_count (ms : List Measurement) (rcv : Option Value)
    (cn : String) (mi : MetricIndices) (L : List Measurement)
    (h : deriveColumn ms rcv cn mi = .ok L) :
    ∀ m ∈ L, m.metric ≠ Metric.valid_count := by
  obtain ⟨miss, valid⟩ := mi
  cases miss with
  | none =>
    simp [deriveColumn] at h
    subst h
    simp
  | some i =>
    simp only [deriveColumn] at h
    cases h1 : measurementNumAt ms i with
    | error e => simp [h1, except_error_bind] at h
    | ok mc =>
      simp only [h1, except_ok_bind] at h
      cases h2 : numValue rcv with
      | error e => simp [h2, except_error_bind] at h
      | ok rc =>
        simp only [h2, except_ok_bind] at h
        cases h3 : pyDiv (mc * 100) rc with
        | error e => simp [h3, except_error_bind] at h
        | ok mp =>
          simp only [h3, except_ok_bind] at h
          cases h4 : pyDiv (values_count_of rc mc * 100) rc with
          | error e => simp [h4, except_error_bind] at h
          | ok vp =>
            simp only [h4, except_ok_bind] at h
            cases valid with
            | none =>
              simp at h
              subst h
              intro m hm
              simp at hm
              rcases hm with rfl | rfl | rfl <;> simp
            | some j =>
              cases h5 : measurementNumAt ms j with
              | error e => simp [h5, except_error_bind] at h
              | ok vc =>
                simp only [h5, except_ok_bind] at h
                cases h6 : pyDiv (invalid_count_of rc mc vc * 100) rc with
                | error e => simp [h6, except_error_bind] at h
                | ok ip =>
                  simp only [h6, except_ok_bind] at h
                  cases h7 : pyDiv (vc * 100) rc with
                  | error e => simp [h7, except_error_bind] at h
                  | ok vap =>
                    simp only [h7, except_ok_bind] at h
                    simp at h
                    subst h
                    intro m hm
                    simp at hm
                    rcases hm with rfl | rfl | rfl | rfl | rfl | rfl <;> simp

/-! ### Claims -/

/-- C8: for every scan — any dialect, configuration, caches and column
list — the first SQL field of the aggregation batch is the dialect's
count-all expression and the first Measurement is the table row count,
before any per-column metric. -/
theorem aggregation_batch_first_row_count (dialect : Dialect)
    (cfg : ScanConfiguration) (caches : String → ScanColumnCache)
    (columns : List Column) :
    (aggregationFields dialect cfg caches columns).head? =
      some dialect.sql_expr_count_all ∧
    (rawAggMeasurements dialect cfg caches columns).head? =
      some { metric := Metric.row_count, column_name := none, value := none } :=
  ⟨rfl, rfl⟩

/-- C1: for every scan the generated SQL field list and the placeholder
Measurement list have equal length, and after execution, whenever the fill
loop succeeds, result-tuple cell `i` is assigned as the value of
Measurement `i`, for every index `i`. -/
theorem aggregation_lockstep (dialect : Dialect) (cfg : ScanConfiguration)
    (caches : String → ScanColumnCache) (columns : List Column) :
    (aggregationFields dialect cfg caches columns).length =
      (rawAggMeasurements dialect cfg caches columns).length ∧
    ∀ (result : List Value) (filled : List Measurement),
      fillValues (rawAggMeasurements dialect cfg caches columns) result = .ok filled →
      ∀ (i : Nat) (m : Measurement) (v : Value),
        (rawAggMeasurements dialect cfg caches columns)[i]? = some m →
        result[i]? = some v →
        filled[i]? = some { m with value := some v } := by
  constructor
  · simp [aggregationFields, rawAggMeasurements, aggregationBlocks_length]
  · intro result filled h i m v hm hv
    exact fillValues_ok_get _ result filled h i m v hm hv

/-- Witness for C1: the worked example — five fields, five placeholders,
and cell 1 of the result tuple (the missing count 2) lands in Measurement
1 (the `age` missing-count placeholder). -/
theorem aggregation_lockstep_witness :
    fillValues (rawAggMeasurements testDialect ageCfg ageCaches [ageCol])
        [Value.num 10, Value.num 2, Value.num 8, Value.num 18, Value.num 65] =
      .ok ageFilled ∧
    ageFilled[1]? =
      some { metric := .missing_count, column_name := some "age",
             value := some (.num 2) } :=
  ⟨rfl,
   (aggregation_lockstep testDialect ageCfg ageCaches [ageCol]).2
     [Value.num 10, Value.num 2, Value.num 8, Value.num 18, Value.num 65]
     ageFilled rfl 1
     { metric := .missing_count, column_name := some "age", value := none }
     (.num 2) rfl rfl⟩

/-- C2: after the raw results are filled in, a column with a missing-count
Measurement (index `i`) gets derived measurements
`missing_percentage = missing_count * 100 / row_count`,
`values_count = row_count - missing_count` and
`values_percentage = values_count * 100 / row_count`; when a valid-count
Measurement (index `j`) also exists, additionally
`invalid_count = row_count - missing_count - valid_count`,
`invalid_percentage = invalid_count * 100 / row_count` and
`valid_percentage = valid_count * 100 / row_count` are appended for that
column. -/
theorem derived_measurements_values (ms : List Measurement) (rc mc vc : ℚ)
    (col : String) (i j : Nat)
    (hmi : measurementNumAt ms i = .ok mc)
    (hvj : measurementNumAt ms j = .ok vc)
    (hrc : rc ≠ 0) :
    deriveColumn ms (some (.num rc)) col ⟨some i, none⟩ =
      .ok [{ metric := .missing_percentage, column_name := some col,
             value := some (.num (missing_percentage_of rc mc)) },
           { metric := .values_count, column_name := some col,
             value := some (.num (values_count_of rc mc)) },
           { metric := .values_percentage, column_name := some col,
             value := some (.num (values_percentage_of rc mc)) }] ∧
    deriveColumn ms (some (.num rc)) col ⟨some i, some j⟩ =
      .ok [{ metric := .missing_percentage, column_name := some col,
             value := some (.num (missing_percentage_of rc mc)) },
           { metric := .values_count, column_name := some col,
             value := some (.num (values_count_of rc mc)) },
           { metric := .values_percentage, column_name := some col,
             value := some (.num (values_percentage_of rc mc)) },
           { metric := .invalid_percentage, column_name := some col,
             value := some (.num (invalid_percentage_of rc mc vc)) },
           { metric := .invalid_count, column_name := some col,
             value := some (.num (invalid_count_of rc mc vc)) },
           { metric := .valid_percentage, column_name := some col,
             value := some (.num (valid_percentage_of rc vc)) }] := by
  constructor
  · simp [deriveColumn, hmi, numValue, pyDiv, hrc, except_ok_bind,
      except_error_bind, missing_percentage_of, values_count_of,
      values_percentage_of]
  · simp [deriveColumn, hmi, hvj, numValue, pyDiv, hrc, except_ok_bind,
      except_error_bind, missing_percentage_of, values_count_of,
      values_percentage_of, invalid_count_of, invalid_percentage_of,
      valid_percentage_of]

/-- Witness for C2: the worked example — row count 10, missing 2, valid 8
yield missing 20 percent, 8 values at 80 percent, 0 invalid at 0 percent
and 80 percent valid. -/
theorem derived_measurements_values_witness :
    measurementNumAt ageFilled 1 = .ok 2 ∧
    measurementNumAt ageFilled 2 = .ok 8 ∧
    (10 : ℚ) ≠ 0 ∧
    deriveColumn ageFilled (some (.num 10)) "age" ⟨some 1, some 2⟩ =
      .ok [{ metric := .missing_percentage, column_name := some "age",
             value := some (.num 20) },
           { metric := .values_count, column_name := some "age",
             value := some (.num 8) },
           { metric := .values_percentage, column_name := some "age",
             value := some (.num 80) },
           { metric := .invalid_percentage, column_name := some "age",
             value := some (.num 0) },
           { metric := .invalid_count, column_name := some "age",
             value := some (.num 0) },
           { metric := .valid_percentage, column_name := some "age",
             value := some (.num 80) }] := by
  refine ⟨rfl, rfl, by decide, ?_⟩
  have h := (derived_measurements_values ageFilled 10 2 8 "age" 1 2 rfl rfl (by decide)).2
  norm_num [missing_percentage_of, values_count_of, values_percentage_of,
    invalid_count_of, invalid_percentage_of, valid_percentage_of] at h
  exact h

/-- C3: for every row count greater than zero the derived percentages of a
column sum to one hundred exactly, and whenever both missing and valid
counts are tracked the derived invalid count closes the partition:
`invalid_count + valid_count + missing_count = row_count`. -/
theorem derived_percentages_algebra (rc mc vc : ℚ) (h : 0 < rc) :
    missing_percentage_of rc mc + values_percentage_of rc mc = 100 ∧
    invalid_count_of rc mc vc + vc + mc = rc := by
  have hne : rc ≠ 0 := ne_of_gt h
  constructor
  · rw [missing_percentage_of, values_percentage_of, values_count_of]
    field_simp
    ring
  · rw [invalid_count_of]
    ring

/-- Witness for C3: at row count 10, missing 2, valid 8 the percentages
20 and 80 sum to 100 and the counts 0 + 8 + 2 recover the row count. -/
theorem derived_percentages_algebra_witness :
    (0 : ℚ) < 10 ∧
    missing_percentage_of 10 2 + values_percentage_of 10 2 = 100 ∧
    invalid_count_of 10 2 8 + 8 + 2 = 10 :=
  ⟨by decide, (derived_percentages_algebra 10 2 8 (by decide)).1,
   (derived_percentages_algebra 10 2 8 (by decide)).2⟩

/-- Counterexample for C5: on a zero-row table the aggregation pass does
not classify the percentage derivations as undefined-metric results — the
division raises and the whole pass (hence the scan) aborts with
`ZeroDivisionError`. -/
theorem zero_row_count_crash_counterexample :
    query_aggregations testDialect ageCfg ageCaches [ageCol] zeroRowWarehouse none =
      .error "ZeroDivisionError: division by zero" := rfl

/-- C5 as amended: the arithmetic edge cases raise a distinct
division-by-zero error that aborts the pass — a zero row count in any
column derivation with a missing index, and a valid count of 1 in the
uniqueness derivation — rather than silently emitting NaN or infinity;
they are not converted into undefined-metric results. -/
theorem arithmetic_edge_cases_raise :
    (∀ (ms : List Measurement) (rcv : Option Value) (col : String)
       (vi : Option Nat) (i : Nat) (mc : ℚ),
      measurementNumAt ms i = .ok mc →
      numValue rcv = .ok 0 →
      deriveColumn ms rcv col ⟨some i, vi⟩ =
        .error "ZeroDivisionError: division by zero") ∧
    (∀ (sm : List Measurement) (wh : Warehouse) (sql col : String) (d u : ℚ),
      wh.execute_query_one sql = [.num d, .num u] →
      scan_result_get sm .valid_count col = some (.num 1) →
      group_by_trio sm wh sql col =
        .error "ZeroDivisionError: division by zero") := by
  constructor
  · intro ms rcv col vi i mc h1 h2
    simp [deriveColumn, h1, h2, pyDiv, except_ok_bind, except_error_bind]
  · intro sm wh sql col d u h1 h2
    simp [group_by_trio, listNumAt, h1, numValue, h2, pyDiv,
      except_ok_bind, except_error_bind]

/-- Witness for C5 as amended: a zero row count aborts the derivation of a
column with missing count 0, and a valid count of 1 aborts the uniqueness
derivation for `email`. -/
theorem arithmetic_edge_cases_raise_witness :
    measurementNumAt
        [{ metric := .row_count, value := some (.num 0) },
         { metric := .missing_count, column_name := some "age",
           value := some (.num 0) }] 1 = .ok 0 ∧
    numValue (some (.num 0)) = .ok 0 ∧
    deriveColumn
        [{ metric := .row_count, value := some (.num 0) },
         { metric := .missing_count, column_name := some "age",
           value := some (.num 0) }]
        (some (.num 0)) "age" ⟨some 1, none⟩ =
      .error "ZeroDivisionError: division by zero" ∧
    group_by_trio emailValidOneMeasurements trioWarehouse "sql" "email" =
      .error "ZeroDivisionError: division by zero" :=
  ⟨rfl, rfl,
   arithmetic_edge_cases_raise.1
     [{ metric := .row_count, value := some (.num 0) },
      { metric := .missing_count, column_name := some "age",
        value := some (.num 0) }]
     (some (.num 0)) "age" none 1 0 rfl rfl,
   arithmetic_edge_cases_raise.2 emailValidOneMeasurements trioWarehouse
     "sql" "email" 5 3 rfl rfl⟩

/-- C4: the grouped-statistics engine derives uniqueness as
`(distinct_count - 1) * 100 / (valid_count - 1)` — the trio block records
exactly that value — and under the preconditions `valid_count > 1` and
`1 ≤ distinct_count ≤ valid_count` the value lies in [0, 100], is 0 for a
fully-duplicated column and 100 for a fully-unique column. -/
theorem uniqueness_derivation_and_bounds :
    (∀ (sm : List Measurement) (wh : Warehouse) (sql col : String) (d u v : ℚ),
      wh.execute_query_one sql = [.num d, .num u] →
      scan_result_get sm .valid_count col = some (.num v) →
      v ≠ 1 →
      group_by_trio sm wh sql col =
        .ok [{ metric := .distinct, column_name := some col,
               value := some (.num d) },
             { metric := .unique_count, column_name := some col,
               value := some (.num u) },
             { metric := .uniqueness, column_name := some col,
               value := some (.num (uniqueness_formula d v)) }]) ∧
    (∀ d v : ℚ, 1 < v → 1 ≤ d → d ≤ v →
      0 ≤ uniqueness_formula d v ∧ uniqueness_formula d v ≤ 100 ∧
      (d = 1 → uniqueness_formula d v = 0) ∧
      (d = v → uniqueness_formula d v = 100)) := by
  constructor
  · intro sm wh sql col d u v h1 h2 h3
    have hv : v - 1 ≠ 0 := sub_ne_zero.mpr h3
    simp [group_by_trio, listNumAt, h1, numValue, h2, pyDiv, hv,
      except_ok_bind, except_error_bind, uniqueness_formula]
  · intro d v h1 h2 h3
    have hv : (0 : ℚ) < v - 1 := by linarith
    refine ⟨?_, ?_, ?_, ?_⟩
    · rw [uniqueness_formula]
      apply div_nonneg _ hv.le
      have hd : (0 : ℚ) ≤ d - 1 := by linarith
      nlinarith
    · rw [uniqueness_formula, div_le_iff₀ hv]
      linarith
    · intro hd
      subst hd
      simp [uniqueness_formula]
    · intro hd
      subst hd
      rw [uniqueness_formula, div_eq_iff hv.ne']
      ring

/-- Witness for C4: the specification's `email` example — 5 distinct
groups and 3 singletons among 8 valid rows yield distinct 5, unique count
3 and uniqueness 400/7, which lies within [0, 100]. -/
theorem uniqueness_derivation_and_bounds_witness :
    group_by_trio emailScanMeasurements trioWarehouse "sql" "email" =
      .ok [{ metric := .distinct, column_name := some "email",
             value := some (.num 5) },
           { metric := .unique_count, column_name := some "email",
             value := some (.num 3) },
           { metric := .uniqueness, column_name := some "email",
             value := some (.num (uniqueness_formula 5 8)) }] ∧
    0 ≤ uniqueness_formula 5 8 ∧ uniqueness_formula 5 8 ≤ 100 :=
  ⟨uniqueness_derivation_and_bounds.1 emailScanMeasurements trioWarehouse
     "sql" "email" 5 3 8 rfl rfl (by decide),
   (uniqueness_derivation_and_bounds.2 5 8 (by decide) (by decide) (by decide)).1,
   (uniqueness_derivation_and_bounds.2 5 8 (by decide) (by decide) (by decide)).2.1⟩


/-- Counterexample for C6: a rule referencing a metric never computed for
its column is not reported as a per-test TestResult error.  A rule naming
the uncomputed, non-builtin metric `missing_percentage` aborts
`run_tests` (and with it the scan) with a `NameError`, producing no
TestResult at all; and a rule testing the uncomputed metric `min` — whose
name `eval` resolves to the injected builtin `min` function — is silently
coerced to an ordinary TestResult with a false outcome. -/
theorem run_tests_uncomputed_metric_counterexample :
    run_tests badTestCfg rowCountOnlyMeasurements =
      .error "NameError: name missing_percentage is not defined" ∧
    run_tests builtinEqCfg rowCountOnlyMeasurements =
      .ok [{ outcome := false, test := TExpr.eq (.var "min") (.lit 100),
             values := [], column_name := "age" }] :=
  ⟨rfl, rfl⟩

/-- C6 as amended: a rule referencing a metric never computed for its
column is not treated as a reported configuration error.  When evaluating
the rule raises (as a reference to an uncomputed, non-builtin metric name
does, via `NameError`), `run_tests` propagates the exception and aborts
with no TestResult list; and when the uncomputed metric's name collides
with a Python builtin (`min`, `max`, `sum`), an equality test against it
silently yields an ordinary TestResult whose outcome is false. -/
theorem run_tests_uncomputed_metric_behavior :
    (∀ (cfg : ScanConfiguration) (ms : List Measurement) (col : String)
       (t : TExpr) (e : String),
      cfg.columns = [(col, ⟨[t]⟩)] →
      evalTExpr (envOf (test_values (column_measurement_values ms col) t)) t =
        .error e →
      run_tests cfg ms = .error e ∧ ∀ l, run_tests cfg ms ≠ .ok l) ∧
    (∀ (cfg : ScanConfiguration) (ms : List Measurement) (col n : String) (k : ℤ),
      cfg.columns = [(col, ⟨[TExpr.eq (.var n) (.lit k)]⟩)] →
      envOf (test_values (column_measurement_values ms col)
        (TExpr.eq (.var n) (.lit k))) n = none →
      pythonBuiltins.contains n = true →
      run_tests cfg ms =
        .ok [{ outcome := false, test := TExpr.eq (.var n) (.lit k),
               values := test_values (column_measurement_values ms col)
                 (TExpr.eq (.var n) (.lit k)),
               column_name := col }]) := by
  constructor
  · intro cfg ms col t e hcols heval
    have h1 : run_tests cfg ms = .error e := by
      simp [run_tests, hcols, exceptMapFlatten, exceptMap, heval,
        except_ok_bind, except_error_bind]
    exact ⟨h1, by simp [h1]⟩
  · intro cfg ms col n k hcols henv hb
    have hb2 : n ∈ pythonBuiltins := by simpa using hb
    have heval : evalTExpr (envOf (test_values (column_measurement_values ms col)
        (TExpr.eq (.var n) (.lit k)))) (TExpr.eq (.var n) (.lit k)) =
        .ok (.boolean false) := by
      simp [evalTExpr, henv, hb2, toNumber, except_ok_bind]
    simp [run_tests, hcols, exceptMapFlatten, exceptMap, heval,
      except_ok_bind, truthy]

/-- Witness for C6 as amended: the `missing_percentage < 10` rule aborts
`run_tests` with a `NameError` when the metric was never computed, while
the `min == 100` rule on an uncomputed `min` yields a TestResult with a
false outcome. -/
theorem run_tests_uncomputed_metric_behavior_witness :
    run_tests badTestCfg rowCountOnlyMeasurements =
      .error "NameError: name missing_percentage is not defined" ∧
    run_tests builtinEqCfg rowCountOnlyMeasurements =
      .ok [{ outcome := false, test := TExpr.eq (.var "min") (.lit 100),
             values := test_values
               (column_measurement_values rowCountOnlyMeasurements "age")
               (TExpr.eq (.var "min") (.lit 100)),
             column_name := "age" }] :=
  ⟨(run_tests_uncomputed_metric_behavior.1 badTestCfg rowCountOnlyMeasurements
      "age" (TExpr.lt (.var "missing_percentage") (.lit 10))
      "NameError: name missing_percentage is not defined" rfl rfl).1,
   run_tests_uncomputed_metric_behavior.2 builtinEqCfg rowCountOnlyMeasurements
     "age" "min" 100 rfl rfl rfl⟩

/-- Counterexample for C9: the evaluation context of the rule
`invalid_count < 5` contains the valid-count value — a metric the
expression references by no identifier (its only variable is
`invalid_count`) — because the selection is by substring match and
`valid_count` occurs inside `invalid_count`; and evaluation is not
confined to the bound metric-value mapping: over an empty bound mapping
the rule `min == 100` does not fail on the unbound name but evaluates to
a false boolean, resolved from the ambient builtins `eval` injects. -/
theorem test_values_leak_counterexample :
    (test_values leakCmv leakTest).map (fun p => p.1) =
      [Metric.valid_count, Metric.invalid_count] ∧
    leakTest.vars = ["invalid_count"] ∧
    (leakTest.vars.contains "valid_count") = false ∧
    envOf (test_values leakCmv leakTest) "valid_count" = some (.num 8) ∧
    envOf [] "min" = none ∧
    evalTExpr (envOf []) (TExpr.eq (.var "min") (.lit 100)) =
      .ok (.boolean false) :=
  ⟨rfl, rfl, rfl, rfl, rfl, rfl⟩

/-- C9 as amended: the evaluation context of a rule contains exactly the
bound metric values whose metric name occurs as a substring of the rule's
source text — which can include metrics the rule references by no
identifier — and the expression is evaluated over that bound mapping
plus the ambient builtins `eval` injects: a name unbound in the mapping
that is a Python builtin (such as the metric names `min`, `max`, `sum`)
resolves to the builtin function instead of raising `NameError`.
Evaluation is deterministic in the expression and the environment:
environments agreeing on every name evaluate the expression to the same
result. -/
theorem test_values_substring_and_env :
    (∀ (cmv : List (Metric × Value)) (t : TExpr) (p : Metric × Value),
      p ∈ test_values cmv t ↔ (p ∈ cmv ∧ strContains t.text p.1.text = true)) ∧
    (∀ (env : String → Option Value) (n : String),
      env n = none → pythonBuiltins.contains n = true →
      evalTExpr env (.var n) = .ok (.builtin n)) ∧
    (∀ (t : TExpr) (env1 env2 : String → Option Value),
      (∀ s, env1 s = env2 s) → evalTExpr env1 t = evalTExpr env2 t) :=
  ⟨fun cmv t p => by simp [test_values, List.mem_filter],
   fun env n h hb => by
     have hb2 : n ∈ pythonBuiltins := by simpa using hb
     simp [evalTExpr, h, hb2],
   fun t env1 env2 h => by rw [show env1 = env2 from funext h]⟩

/-- Witness for C9 as amended: the valid-count binding is in the context
of `invalid_count < 5` exactly because its name is a substring of the rule
text; the unbound builtin name `min` resolves through the ambient
builtins over an empty mapping; and two pointwise-equal environments —
one built by `run_tests`, one written directly — evaluate the rule to the
same result. -/
theorem test_values_substring_and_env_witness :
    ((Metric.valid_count, Value.num 8) ∈ test_values leakCmv leakTest ↔
      ((Metric.valid_count, Value.num 8) ∈ leakCmv ∧
        strContains leakTest.text (Metric.valid_count).text = true)) ∧
    evalTExpr (envOf []) (.var "min") = .ok (.builtin "min") ∧
    evalTExpr leakEnvA leakTest = evalTExpr leakEnvB leakTest :=
  ⟨test_values_substring_and_env.1 leakCmv leakTest (Metric.valid_count, Value.num 8),
   test_values_substring_and_env.2.1 (envOf []) "min" rfl rfl,
   test_values_substring_and_env.2.2 leakTest leakEnvA leakEnvB
     (fun s => by
       rw [leakEnvA, leakEnvB, envOf]
       by_cases h : "invalid_count" = s
       · subst h; rfl
       · simp [Metric.text, h])⟩

/-- C7: for every column, if any of the distinct or uniqueness metrics is
enabled, the aggregation pass appends both a missing-count and a
valid-count Measurement for that column — regardless of whether the
missing or validity metrics were themselves enabled (the cache flags are
arbitrary here). -/
theorem distinct_uniqueness_require_missing_valid (dialect : Dialect)
    (cfg : ScanConfiguration) (caches : String → ScanColumnCache)
    (columns : List Column) (col : Column)
    (hcol : col ∈ columns)
    (h : cfg.is_any_metric_enabled col.name [.distinct, .uniqueness] = true) :
    ({ metric := .missing_count, column_name := some col.name, value := none } :
      Measurement) ∈ rawAggMeasurements dialect cfg caches columns ∧
    ({ metric := .valid_count, column_name := some col.name, value := none } :
      Measurement) ∈ rawAggMeasurements dialect cfg caches columns := by
  obtain ⟨hv, hm⟩ := columnFlags_enabled_of_any dialect cfg (caches col.name) col h
  obtain ⟨h1, h2⟩ := mem_columnAgg_missing_valid dialect cfg (caches col.name) col hm hv
  rw [rawAggMeasurements]
  exact ⟨List.mem_cons_of_mem _
           (mem_blocks_of_mem dialect cfg caches columns col hcol _ h1 1),
         List.mem_cons_of_mem _
           (mem_blocks_of_mem dialect cfg caches columns col hcol _ h2 1)⟩

/-- Witness for C7: with only the distinct metric enabled on `email` and a
cache enabling no validity or missing metric, the batch still holds both
placeholders for `email`. -/
theorem distinct_uniqueness_require_missing_valid_witness :
    ({ metric := .missing_count, column_name := some "email", value := none } :
      Measurement) ∈ rawAggMeasurements testDialect distinctCfg plainCaches [emailCol] ∧
    ({ metric := .valid_count, column_name := some "email", value := none } :
      Measurement) ∈ rawAggMeasurements testDialect distinctCfg plainCaches [emailCol] :=
  distinct_uniqueness_require_missing_valid testDialect distinctCfg plainCaches
    [emailCol] emailCol (List.mem_cons_self emailCol []) (by decide)

/-- C10: when only the unique-count metric of the distinct/uniqueness trio
is enabled for a column (and no validity metric is configured), the
aggregation pass emits no valid-count Measurement for it — neither in the
raw batch nor in the derived pass — while the grouped-statistics engine
still runs the trio block and derives uniqueness from the scan-result
valid-count lookup; that lookup finds no value and the subtraction on it
is ill-defined, raising a `TypeError` that aborts the engine. -/
theorem unique_count_uniqueness_gap (dialect : Dialect) (cfg : ScanConfiguration)
    (caches : String → ScanColumnCache) (columns : List Column) (col : Column)
    (warehouse : Warehouse) (sm : List Measurement) (tsc : Option String) (d u : ℚ)
    (h_uc : cfg.is_metric_enabled col.name .unique_count = true)
    (h_nd : cfg.is_metric_enabled col.name .distinct = false)
    (h_nu : cfg.is_metric_enabled col.name .uniqueness = false)
    (h_validity : ((caches col.name).validity.isSome &&
      (caches col.name).is_validity_metric_enabled) = false)
    (h_sm : ∀ m ∈ sm, m.metric = .valid_count → m.column_name ≠ some col.name)
    (h_wh : warehouse.execute_query_one
        (trioSQL (group_by_cte dialect cfg (caches col.name) col tsc)) =
      [.num d, .num u]) :
    (∀ m ∈ rawAggMeasurements dialect cfg caches columns,
      m.metric = .valid_count → m.column_name ≠ some col.name) ∧
    (∀ (ms : List Measurement) (rcv : Option Value) (cn : String)
       (mi : MetricIndices) (L : List Measurement),
      deriveColumn ms rcv cn mi = .ok L → ∀ m ∈ L, m.metric ≠ .valid_count) ∧
    scan_result_get sm .valid_count col.name = none ∧
    group_by_column dialect cfg (caches col.name) col warehouse sm tsc =
      .error "TypeError: unsupported operand type" := by
  have hget : scan_result_get sm .valid_count col.name = none := by
    rw [scan_result_get]
    rw [List.find?_eq_none.mpr]
    · rfl
    · intro m hm
      simp only [Bool.and_eq_true, decide_eq_true_eq, not_and]
      intro hmet hcn
      exact h_sm m hm hmet hcn
  refine ⟨?_, ?_, hget, ?_⟩
  · intro m hm hmet hcn
    rw [rawAggMeasurements] at hm
    rcases List.mem_cons.1 hm with rfl | hm2
    · simp at hmet
    · obtain ⟨c, hc, hmc⟩ := blocks_mem_exists dialect cfg caches columns 1 m hm2
      obtain ⟨hcn2, hval⟩ := columnAgg_mem_info dialect cfg (caches c.name) c m hmc
      rw [hcn2] at hcn
      have hname : c.name = col.name := Option.some_injective _ hcn
      have hflag := hval hmet
      rw [hname] at hflag
      simp [columnFlags, ScanConfiguration.is_any_metric_enabled,
        h_validity] at hflag
      rw [hname] at hflag
      simp [h_nd, h_nu] at hflag
  · exact deriveColumn_no_valid_count
  · have h_any6 : cfg.is_any_metric_enabled col.name
        [.distinct, .uniqueness, .unique_count, .mins, .maxs, .frequent_values] = true := by
      simp [ScanConfiguration.is_any_metric_enabled, h_uc]
    have h_any3 : cfg.is_any_metric_enabled col.name
        [.distinct, .uniqueness, .unique_count] = true := by
      simp [ScanConfiguration.is_any_metric_enabled, h_uc]
    have htrio : group_by_trio sm warehouse
        (trioSQL (group_by_cte dialect cfg (caches col.name) col tsc)) col.name =
        .error "TypeError: unsupported operand type" := by
      simp [group_by_trio, listNumAt, h_wh, numValue, hget,
        except_ok_bind, except_error_bind]
    rw [group_by_column]
    rw [h_any6]
    simp only [if_true]
    rw [h_any3]
    simp only [if_true, htrio, except_error_bind]

/-- Witness for C10: only unique-count enabled on `email`, empty scan
result — the valid-count lookup yields nothing and the grouped-statistics
block for `email` aborts with a `TypeError`. -/
theorem unique_count_uniqueness_gap_witness :
    scan_result_get [] .valid_count "email" = none ∧
    group_by_column testDialect uniqueCountCfg plainCache emailCol trioWarehouse
        [] none = .error "TypeError: unsupported operand type" :=
  ⟨(unique_count_uniqueness_gap testDialect uniqueCountCfg plainCaches [emailCol]
      emailCol trioWarehouse [] none 5 3 rfl rfl rfl rfl (by simp) rfl).2.2.1,
   (unique_count_uniqueness_gap testDialect uniqueCountCfg plainCaches [emailCol]
      emailCol trioWarehouse [] none 5 3 rfl rfl rfl rfl (by simp) rfl).2.2.2⟩

end SodaScan
